import Mathlib

/-!
Verification development for a pygame HUD renderer (`src/ui.py`) and a
weapon sprite positioner (`src/weapon.py`).

Modelling choices:
- Rendering is modelled as emitting a list of `DrawCmd` events; the shared
  display surface is implicit in that list (the code only ever draws onto
  `self.display_surface`).
- pygame rectangle coordinates and pygame/python numbers are modelled as
  exact rationals (`ℚ`); python float division is exact rational division.
- Colors come from a settings module that only the source names
  symbolically (`UI_BACKGROUND_COLOR`, `UI_BORDER_COLOR`, ...), so they are
  modelled as the inductive `ColorName` of those symbols.  Likewise
  `ITEM_BOX_SIZE` and the surface dimensions are opaque configuration and
  live as fields of `UIState`.
- Python operations that can raise (`/` on zero, list indexing) return
  `Option`; `none` models the raised exception.
- Python list indexing supports negative wrap-around; `pyGet` reproduces
  that semantics exactly.
-/

set_option autoImplicit false

namespace Spec2Proof

/-- A pygame-style rectangle, coordinates modelled as exact rationals.
`x`,`y` are the top-left corner, `w`,`h` the width and height. -/
structure Rect where
  x : ℚ
  y : ℚ
  w : ℚ
  h : ℚ
deriving DecidableEq, Repr

namespace Rect

/-- pygame `rect.midleft`. -/
def midleft (r : Rect) : ℚ × ℚ := (r.x, r.y + r.h / 2)

/-- pygame `rect.midright`. -/
def midright (r : Rect) : ℚ × ℚ := (r.x + r.w, r.y + r.h / 2)

/-- pygame `rect.midtop`. -/
def midtop (r : Rect) : ℚ × ℚ := (r.x + r.w / 2, r.y)

/-- pygame `rect.midbottom`. -/
def midbottom (r : Rect) : ℚ × ℚ := (r.x + r.w / 2, r.y + r.h)

/-- pygame `rect.center`. -/
def center (r : Rect) : ℚ × ℚ := (r.x + r.w / 2, r.y + r.h / 2)

/-- pygame `rect.bottomright`. -/
def bottomright (r : Rect) : ℚ × ℚ := (r.x + r.w, r.y + r.h)

/-- pygame `surface.get_rect(midleft = p)` for a surface of size `w × h`. -/
def fromMidleft (p : ℚ × ℚ) (w h : ℚ) : Rect := ⟨p.1, p.2 - h / 2, w, h⟩

/-- pygame `surface.get_rect(midright = p)`. -/
def fromMidright (p : ℚ × ℚ) (w h : ℚ) : Rect := ⟨p.1 - w, p.2 - h / 2, w, h⟩

/-- pygame `surface.get_rect(midtop = p)`. -/
def fromMidtop (p : ℚ × ℚ) (w h : ℚ) : Rect := ⟨p.1 - w / 2, p.2, w, h⟩

/-- pygame `surface.get_rect(midbottom = p)`. -/
def fromMidbottom (p : ℚ × ℚ) (w h : ℚ) : Rect := ⟨p.1 - w / 2, p.2 - h, w, h⟩

/-- pygame `surface.get_rect(center = p)`. -/
def fromCenter (p : ℚ × ℚ) (w h : ℚ) : Rect := ⟨p.1 - w / 2, p.2 - h / 2, w, h⟩

/-- pygame `surface.get_rect(bottomright = p)`. -/
def fromBottomright (p : ℚ × ℚ) (w h : ℚ) : Rect := ⟨p.1 - w, p.2 - h, w, h⟩

/-- pygame `rect.inflate(dx, dy)`: grow by `(dx, dy)` keeping the center. -/
def inflate (r : Rect) (dx dy : ℚ) : Rect := ⟨r.x - dx / 2, r.y - dy / 2, r.w + dx, r.h + dy⟩

end Rect

/-- The named color constants the source reads from its settings module. -/
inductive ColorName where
  | uiBackground
  | uiBorder
  | uiBorderActive
  | health
  | energy
  | text
deriving DecidableEq, Repr

/-- A loaded image surface: its pixel size plus an identity tag that
distinguishes distinct loaded assets. -/
structure Image where
  id : Nat
  w : ℚ
  h : ℚ
deriving DecidableEq, Repr

/-- One drawing event on the display surface.
`rect c r b` is `pygame.draw.rect(surface, c, r, b)` (`b = 0`: filled,
`b > 0`: border of that pixel width); `blit` blits an image; `text`
blits a rendered text surface. -/
inductive DrawCmd where
  | rect (color : ColorName) (r : Rect) (borderWidth : Nat)
  | blit (img : Image) (r : Rect)
  | text (s : String) (r : Rect)
deriving DecidableEq, Repr

/-- Python list indexing `xs[i]`: nonnegative indices are plain positional
access, negative indices in `[-len, -1]` wrap to `len + i`, anything else
raises `IndexError` (modelled as `none`). -/
def pyGet {α : Type} (xs : List α) (i : Int) : Option α :=
  if 0 ≤ i then xs[i.toNat]?
  else if -(xs.length : Int) ≤ i then xs[((xs.length : Int) + i).toNat]?
  else none

/-- Python `int(q)`: truncation toward zero. -/
def ratTrunc (q : ℚ) : Int := q.num / (q.den : Int)

/-- The state a `UI` object holds after `__init__`: the surface it draws
onto (only its size is observable here), the font (only the size of a
rendered string is observable, as `fontSize`), the two fixed bar
rectangles, the item box size from settings, and the two icon lists built
from `weapon_data` / `magic_data`. -/
structure UIState where
  surfaceW : ℚ
  surfaceH : ℚ
  fontSize : String → ℚ × ℚ
  health_bar_rect : Rect
  enery_bar_rect : Rect
  itemBoxSize : ℚ
  weapon_graphics : List Image
  magic_graphics : List Image

/-- `UI.show_bar(current_amount, max_amount, bg_rect, color)`: draws the
bar background, computes `ratio = current_amount / max_amount` (python
division: raises on `max_amount == 0`, modelled as `none`), copies
`bg_rect` with its width replaced by `bg_rect.width * ratio`, draws that
fill rectangle, then a 3px border over the background rectangle. -/
def showBar (current_amount max_amount : ℚ) (bg_rect : Rect) (color : ColorName) :
    Option (List DrawCmd) :=
  if max_amount = 0 then none
  else
    let ratio := current_amount / max_amount
    let current_width := bg_rect.w * ratio
    let current_rect : Rect := { bg_rect with w := current_width }
    some [DrawCmd.rect ColorName.uiBackground bg_rect 0,
          DrawCmd.rect color current_rect 0,
          DrawCmd.rect ColorName.uiBorder bg_rect 3]

/-- `UI.show_exp(exp)`: renders `str(int(exp))`, anchors the text rect so
its bottom-right corner is at `(surfaceW - 20, surfaceH - 20)`, fills the
text rect inflated by `(10, 10)` with `UI_BACKGROUND_COLOR`, blits the
text, then draws a 3px border on the same inflated rect — also with
`UI_BACKGROUND_COLOR` (the source uses the background color for this
border, not `UI_BORDER_COLOR`). -/
def showExp (ui : UIState) (exp : ℚ) : List DrawCmd :=
  let s := toString (ratTrunc exp)
  let x := ui.surfaceW - 20
  let y := ui.surfaceH - 20
  let sz := ui.fontSize s
  let text_rect := Rect.fromBottomright (x, y) sz.1 sz.2
  [DrawCmd.rect ColorName.uiBackground (text_rect.inflate 10 10) 0,
   DrawCmd.text s text_rect,
   DrawCmd.rect ColorName.uiBackground (text_rect.inflate 10 10) 3]

/-- `UI.selection_box(x, y, is_switching)`: a square `ITEM_BOX_SIZE` box at
`(x, y)`, background fill, then a 3px border whose color depends on
`is_switching`; returns the box rectangle (paired here with the emitted
draw commands). -/
def selectionBox (ui : UIState) (x y : ℚ) (is_switching : Bool) : Rect × List DrawCmd :=
  let bg_rect : Rect := ⟨x, y, ui.itemBoxSize, ui.itemBoxSize⟩
  let border :=
    if is_switching then DrawCmd.rect ColorName.uiBorderActive bg_rect 3
    else DrawCmd.rect ColorName.uiBorder bg_rect 3
  (bg_rect, [DrawCmd.rect ColorName.uiBackground bg_rect 0, border])

/-- `UI.weapon_overlay(weapon_index, is_switching)`: selection box at
`(10, 630)`, then blits `weapon_graphics[weapon_index]` centered in the
box; indexing out of range raises (modelled as `none`). -/
def weaponOverlay (ui : UIState) (weapon_index : Int) (is_switching : Bool) :
    Option (List DrawCmd) :=
  let boxed := selectionBox ui 10 630 is_switching
  match pyGet ui.weapon_graphics weapon_index with
  | none => none
  | some weapon_img =>
    let weapon_rect := Rect.fromCenter boxed.1.center weapon_img.w weapon_img.h
    some (boxed.2 ++ [DrawCmd.blit weapon_img weapon_rect])

/-- `UI.magic_overlay(magic_index, is_switching)`: selection box at
`(80, 620)`, then blits `magic_graphics[magic_index]` centered in it. -/
def magicOverlay (ui : UIState) (magic_index : Int) (is_switching : Bool) :
    Option (List DrawCmd) :=
  let boxed := selectionBox ui 80 620 is_switching
  match pyGet ui.magic_graphics magic_index with
  | none => none
  | some magic_img =>
    let magic_rect := Rect.fromCenter boxed.1.center magic_img.w magic_img.h
    some (boxed.2 ++ [DrawCmd.blit magic_img magic_rect])

/-- The player attributes the two source files read. `statsHealth` and
`statsEnergy` stand for `player.stats['health']` and
`player.stats['energy']`. -/
structure Player where
  health : ℚ
  energy : ℚ
  statsHealth : ℚ
  statsEnergy : ℚ
  weapon_index : Int
  magic_index : Int
  able_to_switch_weapon : Bool
  able_to_switch_magic : Bool
  exp : ℚ
  status : String
  weapon : String
  rect : Rect

/-- `UI.display(player)`: health bar, energy bar, weapon overlay with
switching flag `not able_to_switch_weapon`, magic overlay with switching
flag `not able_to_switch_magic`, then the experience text, in this
order. A raised exception anywhere is modelled as `none` overall. -/
def display (ui : UIState) (p : Player) : Option (List DrawCmd) := do
  let c1 ← showBar p.health p.statsHealth ui.health_bar_rect ColorName.health
  let c2 ← showBar p.energy p.statsEnergy ui.enery_bar_rect ColorName.energy
  let c3 ← weaponOverlay ui p.weapon_index (!p.able_to_switch_weapon)
  let c4 ← magicOverlay ui p.magic_index (!p.able_to_switch_magic)
  return c1 ++ c2 ++ c3 ++ c4 ++ showExp ui p.exp

/-- Python `str.split(sep)` for a one-character separator, on the
character list of the string: splitting the empty string gives `[[]]`,
and every separator occurrence starts a new piece. -/
def splitOnChar (sep : Char) : List Char → List (List Char)
  | [] => [[]]
  | c :: cs =>
    if c = sep then [] :: splitOnChar sep cs
    else
      match splitOnChar sep cs with
      | [] => [[c]]
      | piece :: rest => (c :: piece) :: rest

/-- `player.status.split('_')[0]`: the substring of `status` before the
first underscore (the whole string when there is none; python split never
returns an empty list, so index `0` never raises). -/
def statusDirection (status : String) : String :=
  String.mk ((splitOnChar '_' status.data).headD [])

/-- The observable result of `Weapon.__init__`: the sprite type tag, the
image path it loads, and the rectangle it assigns to `self.rect` — `none`
when the constructor leaves `self.rect` unassigned (the unrecognized
direction branch computes a center-anchored rectangle with
`self.image.get_rect(center = ...)` but discards the result). `imgW`,
`imgH` are the pixel size of the loaded weapon image. -/
structure WeaponSprite where
  sprite_type : String
  image_path : String
  rect : Option Rect
deriving DecidableEq, Repr

/-- `Weapon.__init__(player, groups)` from `src/weapon.py`. -/
def weaponInit (p : Player) (imgW imgH : ℚ) : WeaponSprite :=
  let dir := statusDirection p.status
  let full_path := "./graphics/weapons/" ++ p.weapon ++ "/" ++ dir ++ ".png"
  let rect : Option Rect :=
    if dir = "right" then
      some (Rect.fromMidleft (p.rect.midright + ((0 : ℚ), (16 : ℚ))) imgW imgH)
    else if dir = "left" then
      some (Rect.fromMidright (p.rect.midleft + ((0 : ℚ), (16 : ℚ))) imgW imgH)
    else if dir = "up" then
      some (Rect.fromMidbottom (p.rect.midtop + ((-10 : ℚ), (0 : ℚ))) imgW imgH)
    else if dir = "down" then
      some (Rect.fromMidtop (p.rect.midbottom + ((-10 : ℚ), (0 : ℚ))) imgW imgH)
    else
      let _discarded := Rect.fromCenter p.rect.center imgW imgH
      none
  ⟨"weapon", full_path, rect⟩

/-! ## Helper lemmas -/

/-- Python indexing fails exactly when the index is outside `[-len, len-1]`. -/
theorem pyGet_eq_none_iff {α : Type} (xs : List α) (i : Int) :
    pyGet xs i = none ↔ i < -(xs.length : Int) ∨ (xs.length : Int) ≤ i := by
  unfold pyGet
  rcases le_or_lt 0 i with h0 | h0
  · rw [if_pos h0, List.getElem?_eq_none_iff]
    omega
  · rw [if_neg (not_le.mpr h0)]
    by_cases hn : -(xs.length : Int) ≤ i
    · rw [if_pos hn, List.getElem?_eq_none_iff]
      omega
    · rw [if_neg hn]
      constructor
      · intro _; omega
      · intro _; rfl

/-- A negative in-range python index wraps to `len + i`. -/
theorem pyGet_neg {α : Type} (xs : List α) (i : Int)
    (h1 : -(xs.length : Int) ≤ i) (h2 : i < 0) :
    pyGet xs i = xs[((xs.length : Int) + i).toNat]? := by
  unfold pyGet
  rw [if_neg (not_le.mpr h2), if_pos h1]

/-- `weapon_overlay` propagates exactly the indexing failure. -/
theorem weaponOverlay_eq_none_iff (ui : UIState) (i : Int) (sw : Bool) :
    weaponOverlay ui i sw = none ↔ pyGet ui.weapon_graphics i = none := by
  unfold weaponOverlay
  cases h : pyGet ui.weapon_graphics i <;> simp [h]

/-- `magic_overlay` propagates exactly the indexing failure. -/
theorem magicOverlay_eq_none_iff (ui : UIState) (i : Int) (sw : Bool) :
    magicOverlay ui i sw = none ↔ pyGet ui.magic_graphics i = none := by
  unfold magicOverlay
  cases h : pyGet ui.magic_graphics i <;> simp [h]

/-! ## Claim theorems -/

/-- C1: for `0 ≤ current ≤ max` and `max > 0`, `show_bar` draws a fill
rectangle over the background whose width equals
`bg_rect.width * (current / max)` exactly. -/
theorem show_bar_fill_width (c m : ℚ) (bg : Rect) (col : ColorName)
    (_h0 : 0 ≤ c) (_h1 : c ≤ m) (h2 : 0 < m) :
    ∃ fr : Rect,
      showBar c m bg col =
        some [DrawCmd.rect ColorName.uiBackground bg 0, DrawCmd.rect col fr 0,
              DrawCmd.rect ColorName.uiBorder bg 3] ∧
      fr.w = bg.w * (c / m) := by
  refine ⟨{ bg with w := bg.w * (c / m) }, ?_, rfl⟩
  unfold showBar
  rw [if_neg (ne_of_gt h2)]

/-- Witness for C1 at `current = 1`, `max = 2`, a 10-wide bar. -/
theorem show_bar_fill_width_witness :
    ∃ fr : Rect,
      showBar 1 2 ⟨0, 0, 10, 4⟩ ColorName.health =
        some [DrawCmd.rect ColorName.uiBackground ⟨0, 0, 10, 4⟩ 0,
              DrawCmd.rect ColorName.health fr 0,
              DrawCmd.rect ColorName.uiBorder ⟨0, 0, 10, 4⟩ 3] ∧
      fr.w = (⟨0, 0, 10, 4⟩ : Rect).w * (1 / 2) :=
  show_bar_fill_width 1 2 ⟨0, 0, 10, 4⟩ ColorName.health (by decide) (by decide) (by decide)

/-- C3: `show_bar` raises a division-by-zero error iff `max = 0`, and when
`max ≠ 0` the fill width is the unclamped `bg_rect.width * (current / max)`
whatever `current` is. -/
theorem show_bar_zero_division (c m : ℚ) (bg : Rect) (col : ColorName) :
    (showBar c m bg col = none ↔ m = 0) ∧
    (m ≠ 0 →
      ∃ fr : Rect,
        showBar c m bg col =
          some [DrawCmd.rect ColorName.uiBackground bg 0, DrawCmd.rect col fr 0,
                DrawCmd.rect ColorName.uiBorder bg 3] ∧
        fr.w = bg.w * (c / m)) := by
  constructor
  · unfold showBar
    by_cases h : m = 0 <;> simp [h]
  · intro hm
    refine ⟨{ bg with w := bg.w * (c / m) }, ?_, rfl⟩
    unfold showBar
    rw [if_neg hm]

/-- Witness for C3 with `current = 7 > max = 2`: no clamping occurs. -/
theorem show_bar_zero_division_witness :
    (showBar 7 2 ⟨0, 0, 10, 4⟩ ColorName.energy = none ↔ (2 : ℚ) = 0) ∧
    ∃ fr : Rect,
      showBar 7 2 ⟨0, 0, 10, 4⟩ ColorName.energy =
        some [DrawCmd.rect ColorName.uiBackground ⟨0, 0, 10, 4⟩ 0,
              DrawCmd.rect ColorName.energy fr 0,
              DrawCmd.rect ColorName.uiBorder ⟨0, 0, 10, 4⟩ 3] ∧
      fr.w = (⟨0, 0, 10, 4⟩ : Rect).w * (7 / 2) :=
  ⟨(show_bar_zero_division 7 2 ⟨0, 0, 10, 4⟩ ColorName.energy).1,
   (show_bar_zero_division 7 2 ⟨0, 0, 10, 4⟩ ColorName.energy).2 (by decide)⟩

/-- C6: for any `x`, `y`, the two `selection_box` calls return the same
fixed-size square at `(x, y)` and differ only in the border color. -/
theorem selection_box_geometry (ui : UIState) (x y : ℚ) :
    ∃ r : Rect,
      selectionBox ui x y true =
        (r, [DrawCmd.rect ColorName.uiBackground r 0,
             DrawCmd.rect ColorName.uiBorderActive r 3]) ∧
      selectionBox ui x y false =
        (r, [DrawCmd.rect ColorName.uiBackground r 0,
             DrawCmd.rect ColorName.uiBorder r 3]) ∧
      r = ⟨x, y, ui.itemBoxSize, ui.itemBoxSize⟩ :=
  ⟨⟨x, y, ui.itemBoxSize, ui.itemBoxSize⟩, rfl, rfl, rfl⟩

/-- C7: for any `exp`, the text rectangle's bottom-right corner sits at
`(surfaceW - 20, surfaceH - 20)`, whatever size the font renders. -/
theorem show_exp_anchor (ui : UIState) (exp : ℚ) :
    ∃ (s : String) (tr : Rect),
      showExp ui exp =
        [DrawCmd.rect ColorName.uiBackground (tr.inflate 10 10) 0,
         DrawCmd.text s tr,
         DrawCmd.rect ColorName.uiBackground (tr.inflate 10 10) 3] ∧
      tr.bottomright = (ui.surfaceW - 20, ui.surfaceH - 20) := by
  refine ⟨toString (ratTrunc exp),
    Rect.fromBottomright (ui.surfaceW - 20, ui.surfaceH - 20)
      (ui.fontSize (toString (ratTrunc exp))).1
      (ui.fontSize (toString (ratTrunc exp))).2, rfl, ?_⟩
  simp [Rect.fromBottomright, Rect.bottomright]

/-- C10: in `show_exp` the filled background rectangle and the 3px border
drawn after the text use the same color, the UI background color. -/
theorem show_exp_border_color (ui : UIState) (exp : ℚ) :
    ∃ (s : String) (tr : Rect) (c : ColorName),
      showExp ui exp =
        [DrawCmd.rect c (tr.inflate 10 10) 0,
         DrawCmd.text s tr,
         DrawCmd.rect c (tr.inflate 10 10) 3] ∧
      c = ColorName.uiBackground :=
  ⟨toString (ratTrunc exp),
   Rect.fromBottomright (ui.surfaceW - 20, ui.surfaceH - 20)
     (ui.fontSize (toString (ratTrunc exp))).1
     (ui.fontSize (toString (ratTrunc exp))).2,
   ColorName.uiBackground, rfl, rfl⟩

/-- C2: for a recognized status prefix, the weapon rectangle is anchored
per the direction table from `Weapon.__init__`. -/
theorem weapon_direction_anchors (p : Player) (imgW imgH : ℚ) :
    (statusDirection p.status = "right" →
      ∃ r, (weaponInit p imgW imgH).rect = some r ∧
        r.midleft = p.rect.midright + ((0 : ℚ), (16 : ℚ))) ∧
    (statusDirection p.status = "left" →
      ∃ r, (weaponInit p imgW imgH).rect = some r ∧
        r.midright = p.rect.midleft + ((0 : ℚ), (16 : ℚ))) ∧
    (statusDirection p.status = "up" →
      ∃ r, (weaponInit p imgW imgH).rect = some r ∧
        r.midbottom = p.rect.midtop + ((-10 : ℚ), (0 : ℚ))) ∧
    (statusDirection p.status = "down" →
      ∃ r, (weaponInit p imgW imgH).rect = some r ∧
        r.midtop = p.rect.midbottom + ((-10 : ℚ), (0 : ℚ))) := by
  refine
    ⟨fun hd => ⟨Rect.fromMidleft (p.rect.midright + ((0 : ℚ), (16 : ℚ))) imgW imgH, ?_, ?_⟩,
     fun hd => ⟨Rect.fromMidright (p.rect.midleft + ((0 : ℚ), (16 : ℚ))) imgW imgH, ?_, ?_⟩,
     fun hd => ⟨Rect.fromMidbottom (p.rect.midtop + ((-10 : ℚ), (0 : ℚ))) imgW imgH, ?_, ?_⟩,
     fun hd => ⟨Rect.fromMidtop (p.rect.midbottom + ((-10 : ℚ), (0 : ℚ))) imgW imgH, ?_, ?_⟩⟩
  all_goals
    first
    | simp [weaponInit, hd]
    | simp [Rect.midleft, Rect.midright, Rect.midtop, Rect.midbottom,
        Rect.fromMidleft, Rect.fromMidright, Rect.fromMidtop, Rect.fromMidbottom,
        Prod.ext_iff, Prod.fst_add, Prod.snd_add]

/-- A player facing right, used to witness C2. -/
def pRight : Player :=
  { health := 50, energy := 30, statsHealth := 100, statsEnergy := 60,
    weapon_index := 0, magic_index := 0,
    able_to_switch_weapon := true, able_to_switch_magic := true,
    exp := 123, status := "right_idle", weapon := "sword",
    rect := ⟨0, 0, 64, 64⟩ }

/-- A player facing left, used to witness C2. -/
def pLeft : Player := { pRight with status := "left_attack" }

/-- A player facing up, used to witness C2. -/
def pUp : Player := { pRight with status := "up" }

/-- A player facing down, used to witness C2. -/
def pDown : Player := { pRight with status := "down_idle" }

/-- Witness for C2: each of the four anchor rules at a concrete player. -/
theorem weapon_direction_anchors_witness :
    (∃ r, (weaponInit pRight 30 8).rect = some r ∧
      r.midleft = pRight.rect.midright + ((0 : ℚ), (16 : ℚ))) ∧
    (∃ r, (weaponInit pLeft 30 8).rect = some r ∧
      r.midright = pLeft.rect.midleft + ((0 : ℚ), (16 : ℚ))) ∧
    (∃ r, (weaponInit pUp 30 8).rect = some r ∧
      r.midbottom = pUp.rect.midtop + ((-10 : ℚ), (0 : ℚ))) ∧
    (∃ r, (weaponInit pDown 30 8).rect = some r ∧
      r.midtop = pDown.rect.midbottom + ((-10 : ℚ), (0 : ℚ))) :=
  ⟨(weapon_direction_anchors pRight 30 8).1 (by decide),
   (weapon_direction_anchors pLeft 30 8).2.1 (by decide),
   (weapon_direction_anchors pUp 30 8).2.2.1 (by decide),
   (weapon_direction_anchors pDown 30 8).2.2.2 (by decide)⟩

/-- C4: for an unrecognized status prefix, `Weapon.__init__` leaves
`self.rect` unassigned (the center-anchored rectangle it computes in that
branch is discarded). -/
theorem weapon_unrecognized_direction (p : Player) (imgW imgH : ℚ)
    (h1 : statusDirection p.status ≠ "right")
    (h2 : statusDirection p.status ≠ "left")
    (h3 : statusDirection p.status ≠ "up")
    (h4 : statusDirection p.status ≠ "down") :
    (weaponInit p imgW imgH).rect = none := by
  simp [weaponInit, h1, h2, h3, h4]

/-- A player with an unrecognized facing direction, used to witness C4. -/
def pDead : Player := { pRight with status := "dead_idle" }

/-- Witness for C4: status `"dead_idle"` yields no assigned rectangle. -/
theorem weapon_unrecognized_direction_witness :
    (weaponInit pDead 30 8).rect = none :=
  weapon_unrecognized_direction pDead 30 8 (by decide) (by decide) (by decide) (by decide)

/-- C5: whenever `display` succeeds, its draw list is exactly the health
bar, the energy bar, the weapon overlay with switching flag
`not able_to_switch_weapon`, the magic overlay with switching flag
`not able_to_switch_magic`, then the experience text, in this order. -/
theorem display_draw_order (ui : UIState) (p : Player) (cmds : List DrawCmd)
    (h : display ui p = some cmds) :
    ∃ c1 c2 c3 c4,
      showBar p.health p.statsHealth ui.health_bar_rect ColorName.health = some c1 ∧
      showBar p.energy p.statsEnergy ui.enery_bar_rect ColorName.energy = some c2 ∧
      weaponOverlay ui p.weapon_index (!p.able_to_switch_weapon) = some c3 ∧
      magicOverlay ui p.magic_index (!p.able_to_switch_magic) = some c4 ∧
      cmds = c1 ++ c2 ++ c3 ++ c4 ++ showExp ui p.exp := by
  unfold display at h
  simp only [Option.bind_eq_bind] at h
  rw [Option.bind_eq_some] at h
  obtain ⟨c1, e1, h⟩ := h
  rw [Option.bind_eq_some] at h
  obtain ⟨c2, e2, h⟩ := h
  rw [Option.bind_eq_some] at h
  obtain ⟨c3, e3, h⟩ := h
  rw [Option.bind_eq_some] at h
  obtain ⟨c4, e4, h⟩ := h
  exact ⟨c1, c2, c3, c4, e1, e2, e3, e4, (Option.some.inj h).symm⟩

/-- A weapon icon image, used in overlay witnesses. -/
def imgSword : Image := ⟨0, 20, 20⟩

/-- Another icon image, used in overlay witnesses. -/
def imgLance : Image := ⟨1, 24, 24⟩

/-- A concrete HUD state with two weapon icons and one magic icon. -/
def uiSample : UIState :=
  { surfaceW := 1280, surfaceH := 720,
    fontSize := fun _ => (30, 12),
    health_bar_rect := ⟨10, 10, 200, 20⟩,
    enery_bar_rect := ⟨10, 34, 140, 20⟩,
    itemBoxSize := 80,
    weapon_graphics := [imgSword, imgLance],
    magic_graphics := [imgLance] }

/-- The draw list `display` produces on the sample state and player. -/
def displaySampleCmds : List DrawCmd := (display uiSample pRight).getD []

/-- Witness for C5: the decomposition at a concrete state and player. -/
theorem display_draw_order_witness :
    ∃ c1 c2 c3 c4,
      showBar pRight.health pRight.statsHealth uiSample.health_bar_rect ColorName.health = some c1 ∧
      showBar pRight.energy pRight.statsEnergy uiSample.enery_bar_rect ColorName.energy = some c2 ∧
      weaponOverlay uiSample pRight.weapon_index (!pRight.able_to_switch_weapon) = some c3 ∧
      magicOverlay uiSample pRight.magic_index (!pRight.able_to_switch_magic) = some c4 ∧
      displaySampleCmds = c1 ++ c2 ++ c3 ++ c4 ++ showExp uiSample pRight.exp :=
  display_draw_order uiSample pRight displaySampleCmds (by rfl)

/-- C8: for a fixed `max > 0` and a bar rectangle, the drawn fill width is
monotonically non-decreasing in `current`. -/
theorem show_bar_monotone (c1 c2 m : ℚ) (bg : Rect) (col : ColorName) (r1 r2 : Rect)
    (hm : 0 < m) (hw : 0 ≤ bg.w) (hc : c1 ≤ c2)
    (hb1 : showBar c1 m bg col =
      some [DrawCmd.rect ColorName.uiBackground bg 0, DrawCmd.rect col r1 0,
            DrawCmd.rect ColorName.uiBorder bg 3])
    (hb2 : showBar c2 m bg col =
      some [DrawCmd.rect ColorName.uiBackground bg 0, DrawCmd.rect col r2 0,
            DrawCmd.rect ColorName.uiBorder bg 3]) :
    r1.w ≤ r2.w := by
  unfold showBar at hb1 hb2
  rw [if_neg (ne_of_gt hm)] at hb1 hb2
  simp only [Option.some.injEq, List.cons.injEq, DrawCmd.rect.injEq, and_true,
    true_and] at hb1 hb2
  rw [← hb1, ← hb2]
  have hdiv : c1 / m ≤ c2 / m := by gcongr
  exact mul_le_mul_of_nonneg_left hdiv hw

/-- Witness for C8 at `current = 1 ≤ 2`, `max = 4`, an 8-wide bar. -/
theorem show_bar_monotone_witness :
    (⟨0, 0, 2, 4⟩ : Rect).w ≤ (⟨0, 0, 4, 4⟩ : Rect).w :=
  show_bar_monotone 1 2 4 ⟨0, 0, 8, 4⟩ ColorName.health ⟨0, 0, 2, 4⟩ ⟨0, 0, 4, 4⟩
    (by decide) (by decide) (by decide)
    (by norm_num [showBar]) (by norm_num [showBar])

/-- C9: a negative index in `[-n, -1]` silently wraps: the overlay draws
the icon at position `n + index`; an `IndexError` is raised exactly when
the index is outside `[-n, n-1]`; and the same holds for both
`weapon_overlay` and `magic_overlay`. -/
theorem overlay_negative_index (ui : UIState) (i : Int) (sw : Bool) :
    (-(ui.weapon_graphics.length : Int) ≤ i → i < 0 →
      ∃ img r,
        ui.weapon_graphics[((ui.weapon_graphics.length : Int) + i).toNat]? = some img ∧
        weaponOverlay ui i sw =
          some ((selectionBox ui 10 630 sw).2 ++ [DrawCmd.blit img r])) ∧
    (weaponOverlay ui i sw = none ↔
      i < -(ui.weapon_graphics.length : Int) ∨ (ui.weapon_graphics.length : Int) ≤ i) ∧
    (-(ui.magic_graphics.length : Int) ≤ i → i < 0 →
      ∃ img r,
        ui.magic_graphics[((ui.magic_graphics.length : Int) + i).toNat]? = some img ∧
        magicOverlay ui i sw =
          some ((selectionBox ui 80 620 sw).2 ++ [DrawCmd.blit img r])) ∧
    (magicOverlay ui i sw = none ↔
      i < -(ui.magic_graphics.length : Int) ∨ (ui.magic_graphics.length : Int) ≤ i) := by
  refine ⟨fun hn hneg => ?_, ?_, fun hn hneg => ?_, ?_⟩
  · have hlt : ((ui.weapon_graphics.length : Int) + i).toNat < ui.weapon_graphics.length := by
      omega
    have hsome := List.getElem?_eq_getElem hlt
    refine ⟨ui.weapon_graphics[((ui.weapon_graphics.length : Int) + i).toNat],
      Rect.fromCenter (selectionBox ui 10 630 sw).1.center
        (ui.weapon_graphics[((ui.weapon_graphics.length : Int) + i).toNat]).w
        (ui.weapon_graphics[((ui.weapon_graphics.length : Int) + i).toNat]).h,
      hsome, ?_⟩
    unfold weaponOverlay
    rw [pyGet_neg ui.weapon_graphics i hn hneg, hsome]
  · rw [weaponOverlay_eq_none_iff, pyGet_eq_none_iff]
  · have hlt : ((ui.magic_graphics.length : Int) + i).toNat < ui.magic_graphics.length := by
      omega
    have hsome := List.getElem?_eq_getElem hlt
    refine ⟨ui.magic_graphics[((ui.magic_graphics.length : Int) + i).toNat],
      Rect.fromCenter (selectionBox ui 80 620 sw).1.center
        (ui.magic_graphics[((ui.magic_graphics.length : Int) + i).toNat]).w
        (ui.magic_graphics[((ui.magic_graphics.length : Int) + i).toNat]).h,
      hsome, ?_⟩
    unfold magicOverlay
    rw [pyGet_neg ui.magic_graphics i hn hneg, hsome]
  · rw [magicOverlay_eq_none_iff, pyGet_eq_none_iff]

/-- Witness for C9: index `-1` on two weapon icons and one magic icon. -/
theorem overlay_negative_index_witness :
    (∃ img r,
      uiSample.weapon_graphics[((uiSample.weapon_graphics.length : Int) + (-1)).toNat]? = some img ∧
      weaponOverlay uiSample (-1) false =
        some ((selectionBox uiSample 10 630 false).2 ++ [DrawCmd.blit img r])) ∧
    (∃ img r,
      uiSample.magic_graphics[((uiSample.magic_graphics.length : Int) + (-1)).toNat]? = some img ∧
      magicOverlay uiSample (-1) false =
        some ((selectionBox uiSample 80 620 false).2 ++ [DrawCmd.blit img r])) :=
  ⟨(overlay_negative_index uiSample (-1) false).1 (by decide) (by decide),
   (overlay_negative_index uiSample (-1) false).2.2.1 (by decide) (by decide)⟩

end Spec2Proof
